import Mathlib

/-!
Verification of the quickres event-reservation backend (apps/api).

This file gives a shallow embedding of the reservation lifecycle core:
the typestate model in `apps/api/src/models.rs`, the store operations in
`apps/api/src/db.rs` (SQLite rows modelled as lists of row records), and
the route handlers in `apps/api/src/main.rs`.  Definitions are translated
from the source; the few definitions that instead follow the design
document's words (for refinement comparisons) are named `spec_*` and say
so in their doc comments.

Conventions of the embedding:
* UUIDs and tokens are `String`s; random generation (`Uuid::new_v4`) is
  modelled by passing the freshly drawn strings in as parameters.
* Timestamps (`OffsetDateTime`) are `Int` instants; only ordering and
  equality are used.
* `sqlx` queries become pure functions over a `Store` of row lists; a
  `fetch_optional` is `List.find?`, a `COUNT(*)` is `List.length` of a
  `List.filter`, an `UPDATE ... WHERE` is a `List.map` guarded by the
  `WHERE` predicate, an `INSERT` is an append.  I/O-level failures
  (`sqlx::Error`, `env::VarError`) are not modelled.
-/

/-- Model of `DatabaseError` from `apps/api/src/db.rs` (the I/O wrappers
`SqlxError`/`EnvError` are omitted; note there is no `CapacityExceeded`
variant anywhere in the source). -/
inductive DatabaseError where
  | EventNotFound
  | ReservationNotFound
  | TokenInvalid
deriving DecidableEq, Repr

/-- Model of `AppError` (variants actually reachable from the modelled
handlers in `apps/api/src/main.rs`): validation failures carry a message,
`AppError::not_found()` is `NotFound`, and database errors are wrapped. -/
inductive AppError where
  | Validation (msg : String)
  | NotFound
  | Database (e : DatabaseError)
deriving DecidableEq, Repr

/-- Model of `api::EventStatus` from `apps/api/src/api.rs`. -/
inductive EventStatus where
  | Open
  | Full
  | Finished
deriving DecidableEq, Repr

/-- Model of the `events` table row (`EventRow` in `apps/api/src/db.rs`). -/
structure EventRow where
  id : String
  name : String
  description : Option String
  start_time : Int
  end_time : Int
  capacity : Nat
  max_spots_per_reservation : Nat
  location : Option String
  status : String
  created_at : Int
  updated_at : Int
deriving DecidableEq, Repr

/-- Model of the `reservations` table row (`ReservationRow` in
`apps/api/src/db.rs`). -/
structure ReservationRow where
  id : String
  event_id : String
  user_name : String
  user_email : String
  spot_count : Nat
  status : String
  verification_token : String
  created_at : Int
  updated_at : Int
  verified_at : Option Int
deriving DecidableEq, Repr

/-- Model of the `reservation_tokens` table row (`ReservationTokenRow` in
`apps/api/src/db.rs`). -/
structure ReservationTokenRow where
  id : String
  reservation_id : String
  token : String
  status : String
  created_at : Int
  used_at : Option Int
deriving DecidableEq, Repr

/-- The SQLite database contents: one list per table touched by the
modelled operations. -/
structure Store where
  events : List EventRow
  reservations : List ReservationRow
  reservation_tokens : List ReservationTokenRow
deriving DecidableEq, Repr

/-! Typestate model from `apps/api/src/models.rs`.  The source uses
phantom marker types `Creating`/`Pending`/`Confirmed` as the `status`
field of a generic `Reservation<State>`; we mirror that with a status
type parameter. -/

/-- Marker state `Creating` (`models.rs`): transient, no data. -/
structure Creating where
deriving DecidableEq, Repr

/-- State data `Pending` (`models.rs`): persisted timestamps. -/
structure Pending where
  created_at : Int
  updated_at : Int
deriving DecidableEq, Repr

/-- Data of a `ReservationToken<State>` (`models.rs`); the state marker is
carried by the `AnyReservationToken` variant instead of a phantom type. -/
structure ReservationToken where
  token : String
  reservation_id : String
  created_at : Int
deriving DecidableEq, Repr

/-- Model of `ReservationToken::<Active>::new` (`models.rs`): the token
string is `"r-"` followed by a freshly drawn UUID, which we pass in. -/
def ReservationToken.new (uuid : String) (reservation_id : String)
    (created_at : Int) : ReservationToken :=
  { token := "r-" ++ uuid, reservation_id := reservation_id,
    created_at := created_at }

/-- Model of `AnyReservationToken` (`models.rs`): a token in any of the
three states. -/
inductive AnyReservationToken where
  | Active (t : ReservationToken)
  | Used (t : ReservationToken)
  | Expired (t : ReservationToken)
deriving DecidableEq, Repr

namespace AnyReservationToken

/-- Model of `AnyReservationToken::token`. -/
def token : AnyReservationToken → String
  | Active t => t.token
  | Used t => t.token
  | Expired t => t.token

/-- Model of `AnyReservationToken::reservation_id`. -/
def reservation_id : AnyReservationToken → String
  | Active t => t.reservation_id
  | Used t => t.reservation_id
  | Expired t => t.reservation_id

/-- Model of `AnyReservationToken::created_at`. -/
def created_at : AnyReservationToken → Int
  | Active t => t.created_at
  | Used t => t.created_at
  | Expired t => t.created_at

/-- Model of `AnyReservationToken::is_active`. -/
def is_active : AnyReservationToken → Bool
  | Active _ => true
  | _ => false

/-- Model of `AnyReservationToken::is_used`. -/
def is_used : AnyReservationToken → Bool
  | Used _ => true
  | _ => false

/-- Model of `AnyReservationToken::is_expired`. -/
def is_expired : AnyReservationToken → Bool
  | Expired _ => true
  | _ => false

end AnyReservationToken

/-- State data `Confirmed` (`models.rs`): timestamps plus the per-seat
reservation tokens. -/
structure Confirmed where
  created_at : Int
  updated_at : Int
  verified_at : Int
  reservation_tokens : List AnyReservationToken
deriving DecidableEq, Repr

/-- Model of the generic typestate `Reservation<State>` (`models.rs`). -/
structure Reservation (State : Type) where
  id : String
  event_id : String
  user_name : String
  user_email : String
  verification_token : String
  spot_count : Nat
  status : State
deriving DecidableEq, Repr

/-- Alias mirroring `pub type CreatingReservation = Reservation<Creating>`. -/
def CreatingReservation := Reservation Creating

/-- Alias mirroring `pub type PendingReservation = Reservation<Pending>`. -/
def PendingReservation := Reservation Pending

/-- Alias mirroring `pub type ConfirmedReservation = Reservation<Confirmed>`. -/
def ConfirmedReservation := Reservation Confirmed

/-- Model of `CreatingReservation::prepare` (`models.rs` lines 294-304):
builds a `Creating` reservation from the request fields; the fresh UUID id
and the fresh verification-token UUID are passed in (source draws them via
`Uuid::new_v4`).  Note the source function is total: it performs no
validation of `spot_count`. -/
def CreatingReservation.prepare (event_id user_name user_email : String)
    (spot_count : Nat) (fresh_id fresh_verification_uuid : String) :
    CreatingReservation :=
  { id := fresh_id, event_id := event_id, user_name := user_name,
    user_email := user_email,
    verification_token := fresh_verification_uuid,
    spot_count := spot_count, status := {} }

/-- Model of `CreatingReservation::create` (`models.rs` lines 306-319):
Creating → Pending, setting `created_at = updated_at = now`. -/
def CreatingReservation.create (r : CreatingReservation)
    (created_at : Int) : PendingReservation :=
  { id := r.id, event_id := r.event_id, user_name := r.user_name,
    user_email := r.user_email,
    verification_token := r.verification_token,
    spot_count := r.spot_count,
    status := { created_at := created_at, updated_at := created_at } }

/-- Model of `PendingReservation::confirm` (`models.rs` lines 322-347):
Pending → Confirmed, setting `verified_at = updated_at = confirmed_at`,
carrying `created_at` over, and minting `spot_count` Active reservation
tokens via `ReservationToken::new`; the UUID drawn for the i-th token is
`uuids i`. -/
def PendingReservation.confirm (r : PendingReservation)
    (confirmed_at : Int) (uuids : Nat → String) : ConfirmedReservation :=
  { id := r.id, event_id := r.event_id, user_name := r.user_name,
    user_email := r.user_email,
    verification_token := r.verification_token,
    spot_count := r.spot_count,
    status := { created_at := r.status.created_at,
                updated_at := confirmed_at,
                verified_at := confirmed_at,
                reservation_tokens :=
                  (List.range r.spot_count).map (fun i =>
                    AnyReservationToken.Active
                      (ReservationToken.new (uuids i) r.id confirmed_at)) } }

/-! Store operations from `apps/api/src/db.rs`. -/

/-- Model of `ReservationTokenRow::to_any_reservation_token`
(`db.rs` lines 135-151) and of the identical inline match inside
`get_reservation_tokens_by_reservation_id` (`db.rs` lines 390-442): map
the stored status string to a token variant, treating any unknown status
as `Expired`. -/
def ReservationTokenRow.to_any_reservation_token
    (row : ReservationTokenRow) : AnyReservationToken :=
  if row.status = "active" then
    AnyReservationToken.Active
      { token := row.token, reservation_id := row.reservation_id,
        created_at := row.created_at }
  else if row.status = "used" then
    AnyReservationToken.Used
      { token := row.token, reservation_id := row.reservation_id,
        created_at := row.created_at }
  else if row.status = "expired" then
    AnyReservationToken.Expired
      { token := row.token, reservation_id := row.reservation_id,
        created_at := row.created_at }
  else
    AnyReservationToken.Expired
      { token := row.token, reservation_id := row.reservation_id,
        created_at := row.created_at }

/-- Model of `ReservationRow::to_pending_reservation` (`db.rs` lines
163-177): a plain field map into the `Pending` typestate. -/
def ReservationRow.to_pending_reservation (row : ReservationRow) :
    PendingReservation :=
  { id := row.id, event_id := row.event_id, user_name := row.user_name,
    user_email := row.user_email, spot_count := row.spot_count,
    verification_token := row.verification_token,
    status := { created_at := row.created_at,
                updated_at := row.updated_at } }

namespace Database

/-- Model of `Database::get_open_event_by_id` (`db.rs` lines 236-246):
`SELECT ... FROM events WHERE id = ? AND status = 'open'` with
`fetch_optional`; the `From<EventRow> for Event<Open>` conversion copies
every field verbatim, so we return the row itself. -/
def get_open_event_by_id (s : Store) (event_id : String) :
    Option EventRow :=
  s.events.find? (fun e => e.id == event_id && e.status == "open")

/-- Model of `Database::count_event_reservations` (`db.rs` lines 284-293):
`SELECT COUNT(*) FROM reservations WHERE event_id = ? AND status =
'confirmed'` — the number of confirmed reservation rows, not a sum of
their `spot_count`s. -/
def count_event_reservations (s : Store) (event_id : String) : Nat :=
  (s.reservations.filter
    (fun r => r.event_id == event_id && r.status == "confirmed")).length

/-- Model of `Database::get_pending_reservation_by_verification_token`
(`db.rs` lines 319-330): `WHERE verification_token = ? AND status =
'pending'`, converted via `to_pending_reservation`. -/
def get_pending_reservation_by_verification_token (s : Store)
    (token : String) : Option PendingReservation :=
  (s.reservations.find?
      (fun r => r.verification_token == token && r.status == "pending")).map
    ReservationRow.to_pending_reservation

/-- Model of the row lookup inside
`Database::get_confirmed_reservation_by_verification_token` (`db.rs`
lines 332-342): `WHERE verification_token = ? AND status = 'confirmed'`.
Only existence matters to the modelled caller (`verify_email` uses it to
pick an error message), so we return the raw row. -/
def get_confirmed_reservation_row_by_verification_token (s : Store)
    (token : String) : Option ReservationRow :=
  s.reservations.find?
    (fun r => r.verification_token == token && r.status == "confirmed")

/-- Model of `Database::get_reservation_tokens_by_reservation_id`
(`db.rs` lines 390-442): `SELECT ... FROM reservation_tokens WHERE
reservation_id = ?`, each row mapped by the status-string match (same
logic as `to_any_reservation_token`). -/
def get_reservation_tokens_by_reservation_id (s : Store)
    (reservation_id : String) : List AnyReservationToken :=
  (s.reservation_tokens.filter
      (fun row => row.reservation_id == reservation_id)).map
    ReservationTokenRow.to_any_reservation_token

/-- Model of `Database::insert_reservation` (`db.rs` lines 258-282):
INSERT a row with status `'pending'` and `verified_at = NULL`
(`created_at`/`updated_at` are filled by the database, modelled by the
`now` instant), then re-fetch it as a pending reservation.  Assuming the
freshly drawn id is not already present, the re-fetch returns exactly the
inserted row's pending view. -/
def insert_reservation (s : Store) (c : CreatingReservation)
    (now : Int) : PendingReservation × Store :=
  let row : ReservationRow :=
    { id := c.id, event_id := c.event_id, user_name := c.user_name,
      user_email := c.user_email, spot_count := c.spot_count,
      status := "pending", verification_token := c.verification_token,
      created_at := now, updated_at := now, verified_at := none }
  (row.to_pending_reservation,
   { s with reservations := s.reservations ++ [row] })

/-- Model of `Database::confirm_reservation` (`db.rs` lines 530-560):
build the confirmed value via `PendingReservation::confirm(now_utc())`,
run `UPDATE reservations SET status = 'confirmed', verified_at = ? WHERE
id = ?`, then INSERT one `'active'` token row per minted token (each with
a fresh UUID row id, `token_ids i` for the i-th; `created_at` is filled
by the database, modelled by `now`).  The source performs no capacity or
event-openness re-check and no transaction here, and the only failure
paths are I/O errors, so the model is total. -/
def confirm_reservation (s : Store) (pending : PendingReservation)
    (now : Int) (uuids token_ids : Nat → String) :
    ConfirmedReservation × Store :=
  let confirmed := PendingReservation.confirm pending now uuids
  let reservations := s.reservations.map (fun row =>
    if row.id == confirmed.id then
      { row with status := "confirmed",
                 verified_at := some confirmed.status.verified_at }
    else row)
  let token_rows := confirmed.status.reservation_tokens.enum.map
    (fun p => ({ id := token_ids p.1, reservation_id := confirmed.id,
                 token := p.2.token, status := "active",
                 created_at := now, used_at := none } : ReservationTokenRow))
  (confirmed,
   { s with reservations := reservations,
            reservation_tokens := s.reservation_tokens ++ token_rows })

/-- Model of `Database::mark_reservation_token_used` (`db.rs` lines
562-577): the single conditional update `UPDATE reservation_tokens SET
status = 'used', used_at = ? WHERE token = ? AND status = 'active'`;
zero rows affected yields `TokenInvalid`. -/
def mark_reservation_token_used (s : Store) (token : String)
    (now : Int) : Except DatabaseError Store :=
  if (s.reservation_tokens.filter
      (fun row => row.token == token && row.status == "active")).length = 0
  then
    Except.error DatabaseError.TokenInvalid
  else
    Except.ok { s with reservation_tokens :=
      s.reservation_tokens.map (fun row =>
        if row.token == token && row.status == "active" then
          { row with status := "used", used_at := some now }
        else row) }

/-- Model of `Database::create_event` (`db.rs` lines 451-481): INSERT an
event row with status `'open'`; the fresh UUID id is passed in and the
database fills the timestamps (modelled by `now`). -/
def create_event (s : Store) (fresh_id name : String)
    (description : Option String) (start_time end_time : Int)
    (capacity max_spots_per_reservation : Nat)
    (location : Option String) (now : Int) : Store :=
  { s with events := s.events ++
      [{ id := fresh_id, name := name, description := description,
         start_time := start_time, end_time := end_time,
         capacity := capacity,
         max_spots_per_reservation := max_spots_per_reservation,
         location := location, status := "open",
         created_at := now, updated_at := now }] }

/-- Model of `Database::update_event` (`db.rs` lines 483-512): `UPDATE
events SET ... WHERE id = ? AND status = 'open'`. -/
def update_event (s : Store) (event_id name : String)
    (description : Option String) (start_time end_time : Int)
    (capacity max_spots_per_reservation : Nat)
    (location : Option String) : Store :=
  { s with events := s.events.map (fun e =>
      if e.id == event_id && e.status == "open" then
        { e with name := name, description := description,
                 start_time := start_time, end_time := end_time,
                 capacity := capacity,
                 max_spots_per_reservation := max_spots_per_reservation,
                 location := location }
      else e) }

end Database

/-! Route handlers from `apps/api/src/main.rs`.  Email sending happens
after the state transition commits and never changes the store, so the
handlers below model the store effect and the returned value; the
notification collaborator is out of scope (spec section 1). -/

/-- Model of `api::ReserveRequest` (`apps/api/src/api.rs` lines 57-66). -/
structure ReserveRequest where
  event_id : String
  user_name : String
  user_email : String
  spot_count : Nat
deriving DecidableEq, Repr

/-- Model of the `validator` derive on `ReserveRequest` (`api.rs` lines
57-66): name length in [1, 255], email syntactically valid (the crate's
email check is external; it is passed in as `email_ok`), spot_count in
[1, 10000]. -/
def ReserveRequest.validate (email_ok : String → Bool)
    (p : ReserveRequest) : Bool :=
  decide (1 ≤ p.user_name.length) && decide (p.user_name.length ≤ 255) &&
    email_ok p.user_email &&
    decide (1 ≤ p.spot_count) && decide (p.spot_count ≤ 10000)

/-- Model of `api::OpenEventResponse` (`api.rs` lines 38-54). -/
structure OpenEventResponse where
  id : String
  name : String
  description : Option String
  start_time : Int
  end_time : Int
  capacity : Nat
  location : Option String
  created_at : Int
  updated_at : Int
  status : EventStatus
deriving DecidableEq, Repr

/-- Model of the `get_event_by_id` handler (`main.rs` lines 58-81): fetch
the event through `get_open_event_by_id` (which filters on the stored
`status = 'open'` column) and build the response with the status field
hard-coded to `EventStatus::Open`; no end-time or capacity computation
occurs. -/
def get_event_by_id (s : Store) (event_id : String) :
    Except AppError OpenEventResponse :=
  match Database.get_open_event_by_id s event_id with
  | none => Except.error AppError.NotFound
  | some e => Except.ok
      { id := e.id, name := e.name, description := e.description,
        start_time := e.start_time, end_time := e.end_time,
        capacity := e.capacity, location := e.location,
        created_at := e.created_at, updated_at := e.updated_at,
        status := EventStatus.Open }

/-- Model of the `reserve` handler (`main.rs` lines 83-118): validate the
payload, fetch the open event, count confirmed reservation rows, reject
if `current_count > capacity` or `current_count + spot_count > capacity`,
otherwise insert the prepared pending reservation.  On an error no insert
has happened, so the error carries no store.  The verification email is
sent only after the insert and does not touch the store. -/
def reserve (email_ok : String → Bool) (s : Store) (p : ReserveRequest)
    (fresh_id fresh_verification_uuid : String) (now : Int) :
    Except AppError (PendingReservation × Store) :=
  if ¬ p.validate email_ok then
    Except.error (AppError.Validation "validation failed")
  else
    match Database.get_open_event_by_id s p.event_id with
    | none => Except.error (AppError.Database DatabaseError.EventNotFound)
    | some event =>
      let current_count := Database.count_event_reservations s event.id
      if current_count > event.capacity then
        Except.error (AppError.Validation "Event is at full capacity")
      else if current_count + p.spot_count > event.capacity then
        Except.error
          (AppError.Validation "Cannot reserve this many slots for this event")
      else
        Except.ok (Database.insert_reservation s
          (CreatingReservation.prepare p.event_id p.user_name p.user_email
            p.spot_count fresh_id fresh_verification_uuid) now)

/-- Model of the `verify_email` handler (`main.rs` lines 120-159): look up
the pending reservation by verification token; if absent, report
"already confirmed" when a confirmed row with that token exists and
not-found otherwise; if present, run `Database::confirm_reservation`
(which never checks capacity or event openness).  The confirmation email
is sent after the transition and does not touch the store. -/
def verify_email (s : Store) (token : String) (now : Int)
    (uuids token_ids : Nat → String) :
    Except AppError (ConfirmedReservation × Store) :=
  match Database.get_pending_reservation_by_verification_token s token with
  | some pending =>
      Except.ok (Database.confirm_reservation s pending now uuids token_ids)
  | none =>
      match Database.get_confirmed_reservation_row_by_verification_token
          s token with
      | some _ =>
          Except.error (AppError.Validation "Reservation already confirmed")
      | none => Except.error AppError.NotFound

/-- Model of the `scan_reservation_token` handler (`main.rs` lines
300-313): delegate to `mark_reservation_token_used`; on success the
response echoes the token with status string `"used"`. -/
def scan_reservation_token (s : Store) (token : String) (now : Int) :
    Except AppError (String × String × Store) :=
  match Database.mark_reservation_token_used s token now with
  | Except.error e => Except.error (AppError.Database e)
  | Except.ok s' => Except.ok (token, "used", s')

/-! Definitions written from the specification's words, used only to
compare the code against the spec (refinement claims C2 and C7). -/

/-- Specification-side quantity (spec section 4.2, written from the
spec's words, not from the source): `confirmed_seat_count` is the sum of
`spot_count` over all Confirmed reservations of the event. -/
def spec_confirmed_seat_count (s : Store) (event_id : String) : Nat :=
  ((s.reservations.filter
      (fun r => r.event_id == event_id && r.status == "confirmed")).map
    (fun r => r.spot_count)).sum

/-- Specification-side derived event status (spec section 4.4, written
from the spec's words, not from the source): Finished if now is at or
past end_time, else Full if confirmed seats reach capacity, else Open. -/
def spec_event_status (e : EventRow) (confirmed_seats : Nat)
    (now : Int) : EventStatus :=
  if e.end_time ≤ now then EventStatus.Finished
  else if e.capacity ≤ confirmed_seats then EventStatus.Full
  else EventStatus.Open

/-! A small operational model for the temporal claim C5: the store-
mutating operations reachable from the HTTP surface, applied in
sequence.  A failed operation leaves the store unchanged (its error
carries no store). -/

/-- One inbound operation, with the fresh randomness it draws. -/
inductive Op where
  | reserveOp (p : ReserveRequest) (email_ok : String → Bool)
      (fresh_id fresh_verification_uuid : String) (now : Int)
  | verifyOp (token : String) (now : Int) (uuids token_ids : Nat → String)
  | scanOp (token : String) (now : Int)
  | createEventOp (fresh_id name : String) (description : Option String)
      (start_time end_time : Int)
      (capacity max_spots_per_reservation : Nat)
      (location : Option String) (now : Int)
  | updateEventOp (event_id name : String) (description : Option String)
      (start_time end_time : Int)
      (capacity max_spots_per_reservation : Nat)
      (location : Option String)

/-- The store after one operation: the handler's committed store on
success, the unchanged store on failure. -/
def step (s : Store) (op : Op) : Store :=
  match op with
  | Op.reserveOp p email_ok fid fv now =>
      match reserve email_ok s p fid fv now with
      | Except.ok r => r.2
      | Except.error _ => s
  | Op.verifyOp token now uuids token_ids =>
      match verify_email s token now uuids token_ids with
      | Except.ok r => r.2
      | Except.error _ => s
  | Op.scanOp token now =>
      match Database.mark_reservation_token_used s token now with
      | Except.ok s' => s'
      | Except.error _ => s
  | Op.createEventOp fid name d st et cap msp loc now =>
      Database.create_event s fid name d st et cap msp loc now
  | Op.updateEventOp eid name d st et cap msp loc =>
      Database.update_event s eid name d st et cap msp loc

/-- The store after a sequence of operations. -/
def runOps (s : Store) (ops : List Op) : Store :=
  ops.foldl step s

/-! Claim theorems. -/

/-- C9: the transitions `create()` and `confirm()` leave the reservation's
identity fields unchanged — id, event_id, user_name, user_email,
spot_count and the verification token are identical before and after each
transition — and `confirm()` carries the Pending `created_at` over into
the Confirmed state unchanged. -/
theorem transitions_preserve_identity_fields (c : CreatingReservation)
    (t1 : Int) (p : PendingReservation) (t2 : Int) (uuids : Nat → String) :
    ((CreatingReservation.create c t1).id = c.id ∧
     (CreatingReservation.create c t1).event_id = c.event_id ∧
     (CreatingReservation.create c t1).user_name = c.user_name ∧
     (CreatingReservation.create c t1).user_email = c.user_email ∧
     (CreatingReservation.create c t1).spot_count = c.spot_count ∧
     (CreatingReservation.create c t1).verification_token =
       c.verification_token) ∧
    ((PendingReservation.confirm p t2 uuids).id = p.id ∧
     (PendingReservation.confirm p t2 uuids).event_id = p.event_id ∧
     (PendingReservation.confirm p t2 uuids).user_name = p.user_name ∧
     (PendingReservation.confirm p t2 uuids).user_email = p.user_email ∧
     (PendingReservation.confirm p t2 uuids).spot_count = p.spot_count ∧
     (PendingReservation.confirm p t2 uuids).verification_token =
       p.verification_token ∧
     (PendingReservation.confirm p t2 uuids).status.created_at =
       p.status.created_at) :=
  ⟨⟨rfl, rfl, rfl, rfl, rfl, rfl⟩, ⟨rfl, rfl, rfl, rfl, rfl, rfl, rfl⟩⟩

/-- C3: confirming a Pending reservation at instant `t` yields a Confirmed
reservation whose token list has exactly `spot_count` entries, each an
Active token minted in this call (the i-th token string is built from the
i-th UUID drawn here) with `created_at = t` and owned by the reservation,
and whose `verified_at` and `updated_at` both equal `t`. -/
theorem confirm_mints_spot_count_tokens (r : PendingReservation) (t : Int)
    (uuids : Nat → String) :
    (PendingReservation.confirm r t uuids).status.reservation_tokens.length
      = r.spot_count ∧
    (∀ tok ∈ (PendingReservation.confirm r t uuids).status.reservation_tokens,
      tok.is_active = true ∧ tok.created_at = t ∧
        tok.reservation_id = r.id) ∧
    (∀ i (h : i <
        (PendingReservation.confirm r t uuids).status.reservation_tokens.length),
      ((PendingReservation.confirm r t uuids).status.reservation_tokens.get
        ⟨i, h⟩).token = "r-" ++ uuids i) ∧
    (PendingReservation.confirm r t uuids).status.verified_at = t ∧
    (PendingReservation.confirm r t uuids).status.updated_at = t := by
  refine ⟨?_, ?_, ?_, rfl, rfl⟩
  · simp [PendingReservation.confirm]
  · intro tok htok
    simp only [PendingReservation.confirm, List.mem_map,
      List.mem_range] at htok
    obtain ⟨i, _, rfl⟩ := htok
    exact ⟨rfl, rfl, rfl⟩
  · intro i h
    simp [PendingReservation.confirm, ReservationToken.new,
      AnyReservationToken.token]

/-- Concrete pending reservation used by the C3 witness. -/
def rp3 : PendingReservation :=
  { id := "R", event_id := "E", user_name := "n", user_email := "m",
    verification_token := "v", spot_count := 2,
    status := { created_at := 1, updated_at := 1 } }

/-- Witness for C3 at a concrete two-spot pending reservation. -/
theorem confirm_mints_spot_count_tokens_witness :
    AnyReservationToken.is_active
      (AnyReservationToken.Active (ReservationToken.new "u0" "R" 5)) = true ∧
    (PendingReservation.confirm rp3 5
      (fun _ => "u0")).status.reservation_tokens.length = 2 :=
  ⟨((confirm_mints_spot_count_tokens rp3 5 (fun _ => "u0")).2.1
      (AnyReservationToken.Active (ReservationToken.new "u0" "R" 5))
      (by decide)).1,
   by rw [(confirm_mints_spot_count_tokens rp3 5 (fun _ => "u0")).1]; rfl⟩

/-- Helper: the row-to-token mapping preserves the token string. -/
theorem to_any_reservation_token_token (row : ReservationTokenRow) :
    (ReservationTokenRow.to_any_reservation_token row).token = row.token := by
  unfold ReservationTokenRow.to_any_reservation_token
  split_ifs <;> rfl

/-- Helper: the row-to-token mapping yields an Active token exactly when
the stored status string is `"active"`. -/
theorem to_any_reservation_token_active_iff (row : ReservationTokenRow) :
    (ReservationTokenRow.to_any_reservation_token row).is_active = true ↔
      row.status = "active" := by
  unfold ReservationTokenRow.to_any_reservation_token
  split_ifs with h1 h2 h3 <;>
    simp [AnyReservationToken.is_active, h1, *]

/-- C10: loading reservation tokens from the store maps a row whose
status string is not exactly `"active"`, `"used"` or `"expired"` to an
Expired token, and never produces an Active (scannable) token unless the
stored status is exactly `"active"`: every Active token the loader
returns comes from a row whose status is `"active"`. -/
theorem load_never_yields_active_unless_active (s : Store) (rid : String) :
    (∀ tok ∈ Database.get_reservation_tokens_by_reservation_id s rid,
        tok.is_active = true →
        ∃ row ∈ s.reservation_tokens,
          row.reservation_id = rid ∧ row.status = "active" ∧
            row.token = tok.token) ∧
    (∀ row : ReservationTokenRow, row.status ≠ "active" →
        row.status ≠ "used" → row.status ≠ "expired" →
        ReservationTokenRow.to_any_reservation_token row =
          AnyReservationToken.Expired
            { token := row.token, reservation_id := row.reservation_id,
              created_at := row.created_at }) ∧
    (∀ row : ReservationTokenRow,
        (ReservationTokenRow.to_any_reservation_token row).is_active = true
          ↔ row.status = "active") := by
  refine ⟨?_, ?_, to_any_reservation_token_active_iff⟩
  · intro tok htok hact
    simp only [Database.get_reservation_tokens_by_reservation_id,
      List.mem_map, List.mem_filter] at htok
    obtain ⟨row, ⟨hmem, hrid⟩, rfl⟩ := htok
    refine ⟨row, hmem, by simpa using hrid, ?_,
      (to_any_reservation_token_token row).symm⟩
    exact (to_any_reservation_token_active_iff row).mp hact
  · intro row h1 h2 h3
    unfold ReservationTokenRow.to_any_reservation_token
    split_ifs <;> simp_all

/-- Witness for C10 at a concrete row with an unrecognized status
string. -/
theorem load_never_yields_active_unless_active_witness :
    ReservationTokenRow.to_any_reservation_token
      { id := "i1", reservation_id := "r1", token := "t1",
        status := "weird", created_at := 0, used_at := none } =
      AnyReservationToken.Expired
        { token := "t1", reservation_id := "r1", created_at := 0 } :=
  (load_never_yields_active_unless_active
      { events := [], reservations := [], reservation_tokens := [] }
      "r1").2.1
    { id := "i1", reservation_id := "r1", token := "t1",
      status := "weird", created_at := 0, used_at := none }
    (by decide) (by decide) (by decide)

/-- C4: `scan(token)` — modelled by `mark_reservation_token_used`, which
the `scan_reservation_token` handler delegates to — fails with
`TokenInvalid` exactly when no stored token row with that string is in
the Active state (token absent, already Used, or Expired), in which case
the store is unchanged (the error carries no store); on success the
single conditional update turns every Active row bearing that token
string into Used with `used_at` recorded, and leaves every other row —
and the other tables — untouched. -/
theorem scan_active_to_used_iff (s : Store) (token : String) (now : Int) :
    ((Database.mark_reservation_token_used s token now =
        Except.error DatabaseError.TokenInvalid) ↔
      ∀ row ∈ s.reservation_tokens,
        ¬(row.token = token ∧ row.status = "active")) ∧
    (∀ s', Database.mark_reservation_token_used s token now =
        Except.ok s' →
      s'.events = s.events ∧ s'.reservations = s.reservations ∧
      s'.reservation_tokens.length = s.reservation_tokens.length ∧
      ∀ i (h : i < s.reservation_tokens.length)
          (h' : i < s'.reservation_tokens.length),
        ((s.reservation_tokens.get ⟨i, h⟩).token = token ∧
            (s.reservation_tokens.get ⟨i, h⟩).status = "active" →
          s'.reservation_tokens.get ⟨i, h'⟩ =
            { s.reservation_tokens.get ⟨i, h⟩ with
                status := "used", used_at := some now }) ∧
        (¬((s.reservation_tokens.get ⟨i, h⟩).token = token ∧
            (s.reservation_tokens.get ⟨i, h⟩).status = "active") →
          s'.reservation_tokens.get ⟨i, h'⟩ =
            s.reservation_tokens.get ⟨i, h⟩)) := by
  unfold Database.mark_reservation_token_used
  by_cases hz : (s.reservation_tokens.filter
      (fun row => row.token == token && row.status == "active")).length = 0
  · rw [if_pos hz]
    refine ⟨⟨fun _ => ?_, fun _ => rfl⟩, fun s' hok => absurd hok (by simp)⟩
    rw [List.length_eq_zero] at hz
    intro row hmem hcon
    have hnone := List.filter_eq_nil_iff.mp hz row hmem
    simp [hcon.1, hcon.2] at hnone
  · rw [if_neg hz]
    constructor
    · refine ⟨fun h => absurd h (by simp), fun hall => absurd hz ?_⟩
      intro _
      have hnil : s.reservation_tokens.filter
          (fun row => row.token == token && row.status == "active") = [] := by
        apply List.filter_eq_nil_iff.mpr
        intro row hmem
        have := hall row hmem
        simp only [Bool.and_eq_true, beq_iff_eq, not_and]
        intro h1 h2
        exact this ⟨h1, h2⟩
      rw [hnil] at hz
      exact hz rfl
    · intro s' hok
      have hs' : s' = { s with reservation_tokens :=
          s.reservation_tokens.map (fun row =>
            if row.token == token && row.status == "active" then
              { row with status := "used", used_at := some now }
            else row) } := by
        injection hok with h
        exact h.symm
      subst hs'
      refine ⟨rfl, rfl, by simp, ?_⟩
      intro i h h'
      constructor
      · intro hcond
        simp only [List.get_eq_getElem, List.getElem_map]
        have hb : ((s.reservation_tokens[i]).token == token &&
            (s.reservation_tokens[i]).status == "active") = true := by
          simp only [Bool.and_eq_true, beq_iff_eq, decide_eq_true_eq]
          exact ⟨hcond.1, hcond.2⟩
        rw [if_pos hb]
      · intro hncond
        simp only [List.get_eq_getElem, List.getElem_map]
        have hb : ¬ (((s.reservation_tokens[i]).token == token &&
            (s.reservation_tokens[i]).status == "active") = true) := by
          simp only [Bool.and_eq_true, beq_iff_eq, decide_eq_true_eq]
          intro hc
          exact hncond ⟨hc.1, hc.2⟩
        rw [if_neg hb]

/-- Concrete store for the C4 witness: a single Active token row. -/
def s4 : Store :=
  { events := [], reservations := [],
    reservation_tokens :=
      [{ id := "i", reservation_id := "r", token := "T",
         status := "active", created_at := 0, used_at := none }] }

/-- The store `s4` after a successful scan of token `"T"` at instant 9. -/
def s4used : Store :=
  { events := [], reservations := [],
    reservation_tokens :=
      [{ id := "i", reservation_id := "r", token := "T",
         status := "used", created_at := 0, used_at := some 9 }] }

/-- Witness for C4: scanning the Active token `"T"` in `s4` succeeds and
turns exactly that row into Used with `used_at` recorded. -/
theorem scan_active_to_used_iff_witness :
    Database.mark_reservation_token_used s4 "T" 9 = Except.ok s4used ∧
    s4used.reservation_tokens.length = s4.reservation_tokens.length :=
  ⟨by rfl,
   ((scan_active_to_used_iff s4 "T" 9).2 s4used (by rfl)).2.2.1⟩

/-- Event used by the C1 failing input: capacity 1, still open. -/
def ev1 : EventRow :=
  { id := "e1", name := "Ev", description := none, start_time := 0,
    end_time := 100, capacity := 1, max_spots_per_reservation := 5,
    location := none, status := "open", created_at := 0, updated_at := 0 }

/-- C1 failing input: capacity 1 already consumed by a confirmed
reservation, plus a pending reservation awaiting confirmation. -/
def sC1 : Store :=
  { events := [ev1],
    reservations :=
      [{ id := "rA", event_id := "e1", user_name := "a",
         user_email := "a@x", spot_count := 1, status := "confirmed",
         verification_token := "v1", created_at := 0, updated_at := 0,
         verified_at := some 1 },
       { id := "rB", event_id := "e1", user_name := "b",
         user_email := "b@x", spot_count := 1, status := "pending",
         verification_token := "v2", created_at := 2, updated_at := 2,
         verified_at := none }],
    reservation_tokens := [] }

/-- C1: the claim requires confirmation to fail with `CapacityExceeded`
and leave the reservation Pending when capacity is exceeded at
confirmation time, with the capacity and openness check re-run inside
the confirming transaction.  The code has no such re-check (and
`DatabaseError` has no `CapacityExceeded` variant at all): on the
concrete store `sC1` — capacity 1 fully consumed — verifying the pending
reservation succeeds, both reservations end up Confirmed, and the
confirmed seat sum (2) exceeds the capacity (1). -/
theorem confirm_overshoots_capacity :
    ev1.capacity = 1 ∧
    spec_confirmed_seat_count sC1 "e1" = 1 ∧
    (verify_email sC1 "v2" 7 (fun _ => "u") (fun _ => "t")).toOption.map
        (fun r => spec_confirmed_seat_count r.2 "e1") = some 2 ∧
    (verify_email sC1 "v2" 7 (fun _ => "u") (fun _ => "t")).toOption.map
        (fun r => r.2.reservations.map (fun row => row.status)) =
      some ["confirmed", "confirmed"] := by decide

/-- Event used by the C2/C6 failing inputs: capacity 2, still open. -/
def ev2 : EventRow :=
  { id := "e2", name := "Ev2", description := none, start_time := 0,
    end_time := 100, capacity := 2, max_spots_per_reservation := 5,
    location := none, status := "open", created_at := 0, updated_at := 0 }

/-- C2/C6 failing input: one confirmed reservation for 2 spots fills the
capacity-2 event, yet it is a single row. -/
def sC2 : Store :=
  { events := [ev2],
    reservations :=
      [{ id := "rC", event_id := "e2", user_name := "c",
         user_email := "c@x", spot_count := 2, status := "confirmed",
         verification_token := "v3", created_at := 0, updated_at := 0,
         verified_at := some 1 }],
    reservation_tokens := [] }

/-- C2: the claim states the capacity check's confirmed seat count equals
the sum of `spot_count` over Confirmed reservations.  The code's
`count_event_reservations` is `COUNT(*)` over confirmed rows: on `sC2`
(one confirmed reservation for 2 spots) it returns 1 while the seat sum
is 2, so the claimed equality fails. -/
theorem count_is_rows_not_seats :
    Database.count_event_reservations sC2 "e2" = 1 ∧
    spec_confirmed_seat_count sC2 "e2" = 2 ∧
    Database.count_event_reservations sC2 "e2" ≠
      spec_confirmed_seat_count sC2 "e2" := by decide

/-- C6: the claim requires reserve to be rejected at admission whenever
the confirmed seat count plus the requested `spot_count` exceeds
capacity.  On `sC2` the seat sum is 2 and the request asks 1 more spot
(2 + 1 > capacity 2), yet the code admits it — its admission check uses
the confirmed row count (1) — and inserts a Pending row. -/
theorem reserve_accepts_despite_seat_overflow :
    spec_confirmed_seat_count sC2 "e2" + 1 > ev2.capacity ∧
    (reserve (fun _ => true) sC2
        { event_id := "e2", user_name := "Bob", user_email := "b@x.y",
          spot_count := 1 } "rid" "vt" 9).toOption.map
        (fun r => r.2.reservations.map (fun row => (row.id, row.status))) =
      some [("rC", "confirmed"), ("rid", "pending")] := by decide

/-- Event used by the C7 counterexample: stored status `"open"` but
already past its end time at the observation instant. -/
def ev7 : EventRow :=
  { id := "e7", name := "Ev7", description := none, start_time := 0,
    end_time := 10, capacity := 1, max_spots_per_reservation := 5,
    location := none, status := "open", created_at := 0, updated_at := 0 }

/-- Store for the C7 counterexample. -/
def sC7 : Store :=
  { events := [ev7], reservations := [], reservation_tokens := [] }

/-- Counterexample to C7: at instant 20 the event `ev7` is past its end
time, so the claimed derived status is Finished; the code's handler
nevertheless reports Open, because it reads the stored `status` column
(still `"open"`) and hard-codes `EventStatus::Open` in the response — no
recomputation from end_time, capacity ledger or current time occurs. -/
theorem reported_status_ignores_end_time :
    (get_event_by_id sC7 "e7").toOption.map
        (fun resp => resp.status) = some EventStatus.Open ∧
    spec_event_status ev7 (spec_confirmed_seat_count sC7 "e7") 20 =
      EventStatus.Finished ∧
    EventStatus.Open ≠ EventStatus.Finished := by decide

/-- C7 as amended: the status reported to callers is not derived; the
handler returns events whose stored `status` column is `"open"` and
always reports the constant `EventStatus::Open` for them, regardless of
end time or confirmed seats. -/
theorem reported_status_always_open (s : Store) (eid : String)
    (resp : OpenEventResponse)
    (h : get_event_by_id s eid = Except.ok resp) :
    resp.status = EventStatus.Open ∧
    ∃ e ∈ s.events, e.id = eid ∧ e.status = "open" ∧
      resp.end_time = e.end_time ∧ resp.capacity = e.capacity := by
  unfold get_event_by_id at h
  cases hfind : Database.get_open_event_by_id s eid with
  | none => rw [hfind] at h; exact absurd h (by simp)
  | some e =>
    rw [hfind] at h
    injection h with h
    subst h
    have hmem := List.mem_of_find?_eq_some hfind
    have hpred := List.find?_some hfind
    simp only [Bool.and_eq_true, beq_iff_eq] at hpred
    exact ⟨rfl, e, hmem, hpred.1, hpred.2, rfl, rfl⟩

/-- Witness for C7-as-amended at the concrete store `sC7`. -/
theorem reported_status_always_open_witness :
    ({ id := "e7", name := "Ev7", description := none, start_time := 0,
       end_time := 10, capacity := 1, location := none, created_at := 0,
       updated_at := 0,
       status := EventStatus.Open } : OpenEventResponse).status =
      EventStatus.Open ∧
    ∃ e ∈ sC7.events, e.id = "e7" ∧ e.status = "open" ∧
      (10 : Int) = e.end_time ∧ (1 : Nat) = e.capacity :=
  reported_status_always_open sC7 "e7" _ (by rfl)

/-- Counterexample to C8: `prepare` with `spot_count = 0` (outside the
claimed range [1, capacity]) does not reject — the source function is an
infallible constructor with no error path and no `InvalidSpotCount`
error exists anywhere in the code — it returns a Creating reservation
carrying `spot_count = 0`. -/
theorem prepare_accepts_zero_spots :
    CreatingReservation.prepare "e1" "Ann" "a@b.c" 0 "rid" "vtok" =
      { id := "rid", event_id := "e1", user_name := "Ann",
        user_email := "a@b.c", verification_token := "vtok",
        spot_count := 0, status := {} } := rfl

/-- C8 as amended: `prepare` itself is total and simply allocates the
drawn id and verification token; the rejection of a `spot_count` outside
[1, event.capacity] happens earlier in the reserve pipeline — the request
validator bounds (`spot_count` in [1, 10000]) and the handler's capacity
comparison — with a generic validation error, before any reservation row
is inserted (the error result carries no store change). -/
theorem spot_count_rejected_before_insert (email_ok : String → Bool)
    (s : Store) (p : ReserveRequest) (fid fv : String) (now : Int)
    (e : EventRow)
    (hev : Database.get_open_event_by_id s p.event_id = some e)
    (hout : p.spot_count = 0 ∨ e.capacity < p.spot_count) :
    (∃ err, reserve email_ok s p fid fv now = Except.error err) ∧
    (CreatingReservation.prepare p.event_id p.user_name p.user_email
        p.spot_count fid fv).id = fid ∧
    (CreatingReservation.prepare p.event_id p.user_name p.user_email
        p.spot_count fid fv).verification_token = fv := by
  refine ⟨?_, rfl, rfl⟩
  unfold reserve
  by_cases hval : p.validate email_ok = true
  · have hspot : 1 ≤ p.spot_count := by
      unfold ReserveRequest.validate at hval
      simp only [Bool.and_eq_true, decide_eq_true_eq] at hval
      exact hval.1.2
    have hcap : e.capacity < p.spot_count := by
      cases hout with
      | inl h0 => omega
      | inr hlt => exact hlt
    rw [if_neg (not_not_intro hval)]
    simp only [hev]
    by_cases h1 : Database.count_event_reservations s e.id > e.capacity
    · rw [if_pos h1]; exact ⟨_, rfl⟩
    · rw [if_neg h1, if_pos (by omega)]; exact ⟨_, rfl⟩
  · rw [if_pos hval]
    exact ⟨_, rfl⟩

/-- Witness for C8-as-amended: requesting 3 spots on the capacity-2 event
of `sC2` is rejected before any insert. -/
theorem spot_count_rejected_before_insert_witness :
    (∃ err, reserve (fun _ => true) sC2
        { event_id := "e2", user_name := "Bob", user_email := "b@x.y",
          spot_count := 3 } "rid" "vt" 9 = Except.error err) ∧
    (CreatingReservation.prepare "e2" "Bob" "b@x.y" 3 "rid" "vt").id =
      "rid" ∧
    (CreatingReservation.prepare "e2" "Bob" "b@x.y"
        3 "rid" "vt").verification_token = "vt" :=
  spot_count_rejected_before_insert (fun _ => true) sC2
    { event_id := "e2", user_name := "Bob", user_email := "b@x.y",
      spot_count := 3 } "rid" "vt" 9 ev2 (by rfl) (Or.inr (by decide))

/-- Helper: a successful `reserve` only appends one reservation row and
leaves the token table unchanged. -/
theorem reserve_ok_shape (email_ok : String → Bool) (s : Store)
    (p : ReserveRequest) (fid fv : String) (now : Int)
    (r : PendingReservation × Store)
    (h : reserve email_ok s p fid fv now = Except.ok r) :
    (∃ row, r.2.reservations = s.reservations ++ [row]) ∧
    r.2.reservation_tokens = s.reservation_tokens := by
  unfold reserve at h
  split at h
  · exact absurd h (by simp)
  · split at h
    · exact absurd h (by simp)
    · dsimp only [] at h
      split at h
      · exact absurd h (by simp)
      · split at h
        · exact absurd h (by simp)
        · injection h with h
          subst h
          exact ⟨⟨_, rfl⟩, rfl⟩

/-- Helper: a successful `verify_email` maps the reservation rows (only
changing rows matching the confirmed id, to status `"confirmed"`) and
only appends to the token table. -/
theorem verify_ok_shape (s : Store) (token : String) (now : Int)
    (uuids token_ids : Nat → String) (r : ConfirmedReservation × Store)
    (h : verify_email s token now uuids token_ids = Except.ok r) :
    (∃ cid vat, r.2.reservations = s.reservations.map (fun row =>
        if row.id == cid then
          { row with status := "confirmed", verified_at := some vat }
        else row)) ∧
    (∃ tail, r.2.reservation_tokens = s.reservation_tokens ++ tail) := by
  unfold verify_email at h
  split at h
  · injection h with h
    subst h
    exact ⟨⟨_, _, rfl⟩, ⟨_, rfl⟩⟩
  · split at h
    · exact absurd h (by simp)
    · exact absurd h (by simp)

/-- Helper: a successful `mark_reservation_token_used` is exactly the
conditional map over the token table. -/
theorem mark_ok_eq (s : Store) (token : String) (now : Int) (s' : Store)
    (h : Database.mark_reservation_token_used s token now =
      Except.ok s') :
    s' = { s with reservation_tokens :=
      s.reservation_tokens.map (fun row =>
        if row.token == token && row.status == "active" then
          { row with status := "used", used_at := some now }
        else row) } := by
  unfold Database.mark_reservation_token_used at h
  split at h
  · exact absurd h (by simp)
  · injection h with h
    exact h.symm

/-- Helper: indexing into a left append factor. -/
theorem get_append_left_pres {α : Type} (l tail : List α) (i : Nat)
    (h : i < l.length) :
    ∃ h' : i < (l ++ tail).length,
      (l ++ tail).get ⟨i, h'⟩ = l.get ⟨i, h⟩ := by
  refine ⟨by simp only [List.length_append]; omega, ?_⟩
  simp only [List.get_eq_getElem]
  exact List.getElem_append_left h

/-- Helper: indexing into a mapped list. -/
theorem get_map_pres {α : Type} (f : α → α) (l : List α) (i : Nat)
    (h : i < l.length) :
    ∃ h' : i < (l.map f).length,
      (l.map f).get ⟨i, h'⟩ = f (l.get ⟨i, h⟩) := by
  refine ⟨by simpa using h, ?_⟩
  simp only [List.get_eq_getElem, List.getElem_map]


/-- Helper: after one step the reservation table is either the old table
with rows appended, or the old table with rows of one id conditionally
rewritten to Confirmed. -/
theorem step_reservations_shape (s : Store) (op : Op) :
    (∃ rows, (step s op).reservations = s.reservations ++ rows) ∨
    (∃ cid vat, (step s op).reservations = s.reservations.map (fun row =>
      if row.id == cid then
        { row with status := "confirmed", verified_at := some vat }
      else row)) := by
  cases op with
  | reserveOp p email_ok fid fv now =>
    simp only [step]
    cases hres : reserve email_ok s p fid fv now with
    | error e => exact Or.inl ⟨[], (List.append_nil _).symm⟩
    | ok r =>
      obtain ⟨⟨row, hrow⟩, _⟩ :=
        reserve_ok_shape email_ok s p fid fv now r hres
      exact Or.inl ⟨[row], hrow⟩
  | verifyOp tok now uuids token_ids =>
    simp only [step]
    cases hres : verify_email s tok now uuids token_ids with
    | error e => exact Or.inl ⟨[], (List.append_nil _).symm⟩
    | ok r =>
      obtain ⟨⟨cid, vat, hrow⟩, _⟩ :=
        verify_ok_shape s tok now uuids token_ids r hres
      exact Or.inr ⟨cid, vat, hrow⟩
  | scanOp tok now =>
    simp only [step]
    cases hres : Database.mark_reservation_token_used s tok now with
    | error e => exact Or.inl ⟨[], (List.append_nil _).symm⟩
    | ok s' =>
      have hs' := mark_ok_eq s tok now s' hres
      subst hs'
      exact Or.inl ⟨[], (List.append_nil _).symm⟩
  | createEventOp fid name d st et cap msp loc now =>
    exact Or.inl ⟨[], (List.append_nil _).symm⟩
  | updateEventOp eid name d st et cap msp loc =>
    exact Or.inl ⟨[], (List.append_nil _).symm⟩

/-- Helper: after one step the token table is either the old table with
rows appended, or the old table with Active rows of one token string
conditionally rewritten to Used. -/
theorem step_tokens_shape (s : Store) (op : Op) :
    (∃ tail, (step s op).reservation_tokens =
      s.reservation_tokens ++ tail) ∨
    (∃ tok now, (step s op).reservation_tokens =
      s.reservation_tokens.map (fun row =>
        if row.token == tok && row.status == "active" then
          { row with status := "used", used_at := some now }
        else row)) := by
  cases op with
  | reserveOp p email_ok fid fv now =>
    simp only [step]
    cases hres : reserve email_ok s p fid fv now with
    | error e => exact Or.inl ⟨[], (List.append_nil _).symm⟩
    | ok r =>
      obtain ⟨_, htok⟩ := reserve_ok_shape email_ok s p fid fv now r hres
      exact Or.inl ⟨[], htok.trans (List.append_nil _).symm⟩
  | verifyOp tok now uuids token_ids =>
    simp only [step]
    cases hres : verify_email s tok now uuids token_ids with
    | error e => exact Or.inl ⟨[], (List.append_nil _).symm⟩
    | ok r =>
      obtain ⟨_, tail, htok⟩ :=
        verify_ok_shape s tok now uuids token_ids r hres
      exact Or.inl ⟨tail, htok⟩
  | scanOp tok now =>
    simp only [step]
    cases hres : Database.mark_reservation_token_used s tok now with
    | error e => exact Or.inl ⟨[], (List.append_nil _).symm⟩
    | ok s' =>
      have hs' := mark_ok_eq s tok now s' hres
      subst hs'
      exact Or.inr ⟨tok, now, rfl⟩
  | createEventOp fid name d st et cap msp loc now =>
    exact Or.inl ⟨[], (List.append_nil _).symm⟩
  | updateEventOp eid name d st et cap msp loc =>
    exact Or.inl ⟨[], (List.append_nil _).symm⟩

/-- Helper: one step preserves the identity and the Confirmed status of
every reservation row already in the store. -/
theorem step_reservations_preserve (s : Store) (op : Op) (i : Nat)
    (h : i < s.reservations.length) :
    ∃ h' : i < (step s op).reservations.length,
      ((step s op).reservations.get ⟨i, h'⟩).id =
        (s.reservations.get ⟨i, h⟩).id ∧
      ((s.reservations.get ⟨i, h⟩).status = "confirmed" →
        ((step s op).reservations.get ⟨i, h'⟩).status = "confirmed") := by
  rcases step_reservations_shape s op with ⟨rows, hrow⟩ | ⟨cid, vat, hrow⟩
  · rw [hrow]
    obtain ⟨h', heq⟩ := get_append_left_pres s.reservations rows i h
    exact ⟨h', by rw [heq], fun hc => by rw [heq]; exact hc⟩
  · rw [hrow]
    obtain ⟨h', heq⟩ := get_map_pres (fun row =>
      if row.id == cid then
        { row with status := "confirmed", verified_at := some vat }
      else row) s.reservations i h
    refine ⟨h', ?_, ?_⟩
    · rw [heq]
      by_cases hcid : ((s.reservations.get ⟨i, h⟩).id == cid) = true
      · rw [if_pos hcid]
      · rw [if_neg hcid]
    · intro hc
      rw [heq]
      by_cases hcid : ((s.reservations.get ⟨i, h⟩).id == cid) = true
      · rw [if_pos hcid]
      · rw [if_neg hcid]; exact hc

/-- Helper: one step leaves every non-Active token row already in the
store entirely unchanged. -/
theorem step_tokens_preserve (s : Store) (op : Op) (i : Nat)
    (h : i < s.reservation_tokens.length) :
    ∃ h' : i < (step s op).reservation_tokens.length,
      ((s.reservation_tokens.get ⟨i, h⟩).status ≠ "active" →
        (step s op).reservation_tokens.get ⟨i, h'⟩ =
          s.reservation_tokens.get ⟨i, h⟩) := by
  rcases step_tokens_shape s op with ⟨tail, htok⟩ | ⟨tok, now, htok⟩
  · rw [htok]
    obtain ⟨h', heq⟩ := get_append_left_pres s.reservation_tokens tail i h
    exact ⟨h', fun _ => heq⟩
  · rw [htok]
    obtain ⟨h', heq⟩ := get_map_pres (fun row =>
      if row.token == tok && row.status == "active" then
        { row with status := "used", used_at := some now }
      else row) s.reservation_tokens i h
    refine ⟨h', fun hna => ?_⟩
    rw [heq, if_neg]
    simp only [Bool.and_eq_true, beq_iff_eq, decide_eq_true_eq]
    intro hc
    exact hna hc.2

/-- C5: across any reachable sequence of operations (reserve, verify,
scan, event creation and update — every store-mutating operation of the
API), a reservation row observed Confirmed keeps its identity and is
never later observed Pending (its status stays `"confirmed"`), and a
token row that is not Active (Used or Expired) is never changed at all —
in particular it never becomes Active again. -/
theorem transitions_one_way (s : Store) (ops : List Op) :
    (∀ i (h : i < s.reservations.length),
      (s.reservations.get ⟨i, h⟩).status = "confirmed" →
      ∃ h' : i < (runOps s ops).reservations.length,
        ((runOps s ops).reservations.get ⟨i, h'⟩).id =
          (s.reservations.get ⟨i, h⟩).id ∧
        ((runOps s ops).reservations.get ⟨i, h'⟩).status =
          "confirmed") ∧
    (∀ i (h : i < s.reservation_tokens.length),
      (s.reservation_tokens.get ⟨i, h⟩).status ≠ "active" →
      ∃ h' : i < (runOps s ops).reservation_tokens.length,
        (runOps s ops).reservation_tokens.get ⟨i, h'⟩ =
          s.reservation_tokens.get ⟨i, h⟩) := by
  induction ops generalizing s with
  | nil => exact ⟨fun i h hc => ⟨h, rfl, hc⟩, fun i h _ => ⟨h, rfl⟩⟩
  | cons op ops ih =>
    have hrun : runOps s (op :: ops) = runOps (step s op) ops := rfl
    rw [hrun]
    constructor
    · intro i h hc
      obtain ⟨h1, hid1, hst1⟩ := step_reservations_preserve s op i h
      obtain ⟨h2, hid2, hst2⟩ := (ih (step s op)).1 i h1 (hst1 hc)
      exact ⟨h2, hid2.trans hid1, hst2⟩
    · intro i h hna
      obtain ⟨h1, heq1⟩ := step_tokens_preserve s op i h
      have heq1 := heq1 hna
      obtain ⟨h2, heq2⟩ := (ih (step s op)).2 i h1 (by rw [heq1]; exact hna)
      exact ⟨h2, heq2.trans heq1⟩

/-- Concrete store for the C5 witness: one Confirmed reservation, one
pending reservation, one Used token. -/
def s5 : Store :=
  { events := [ev1],
    reservations :=
      [{ id := "rA", event_id := "e1", user_name := "a",
         user_email := "a@x", spot_count := 1, status := "confirmed",
         verification_token := "w1", created_at := 0, updated_at := 0,
         verified_at := some 1 },
       { id := "rB", event_id := "e1", user_name := "b",
         user_email := "b@x", spot_count := 1, status := "pending",
         verification_token := "w2", created_at := 2, updated_at := 2,
         verified_at := none }],
    reservation_tokens :=
      [{ id := "tu", reservation_id := "rA", token := "TU",
         status := "used", created_at := 1, used_at := some 3 }] }

/-- Concrete operation sequence for the C5 witness: verify the pending
reservation (exercising the Confirmed rewrite and token insertion), then
scan a token. -/
def ops5 : List Op :=
  [Op.verifyOp "w2" 7 (fun _ => "u") (fun _ => "t"),
   Op.scanOp "TU" 9]

/-- Witness for C5: after running `ops5` on `s5`, the reservation row
that was Confirmed still is, and the Used token row is unchanged. -/
theorem transitions_one_way_witness :
    (∃ h' : 0 < (runOps s5 ops5).reservations.length,
      ((runOps s5 ops5).reservations.get ⟨0, h'⟩).id = "rA" ∧
      ((runOps s5 ops5).reservations.get ⟨0, h'⟩).status =
        "confirmed") ∧
    (∃ h' : 0 < (runOps s5 ops5).reservation_tokens.length,
      ((runOps s5 ops5).reservation_tokens.get ⟨0, h'⟩).status =
        "used") := by
  constructor
  · obtain ⟨h', hid, hst⟩ :=
      (transitions_one_way s5 ops5).1 0 (by decide) (by decide)
    exact ⟨h', hid.trans (by decide), hst⟩
  · obtain ⟨h', heq⟩ :=
      (transitions_one_way s5 ops5).2 0 (by decide) (by decide)
    exact ⟨h', by rw [heq]; rfl⟩
